import Mathlib

/-!
Verification development for the cross-platform host-communication bridge
(spinning-wheel picker). The definitions below are a shallow embedding of the
TypeScript sources under `src/services/bridge/`:

* `JSVal` models untyped JavaScript values flowing across the bridge;
* `parseBooleanResponse_windows` / `parseBooleanResponse_android` embed the
  per-strategy boolean-response normalizers;
* `EventEmitter` embeds `utils/EventEmitter.ts` (listeners are a
  `Map<string, Set<callback>>`);
* the pending-request machinery embeds `BridgeStrategy`
  (`createPendingRequest`, `resolvePendingRequest`, timeout firing, `cleanup`)
  and the shared `handleMessage` receive path of `WindowsBridge` /
  `AndroidBridge`;
* `detect` embeds `PlatformDetector.detect`;
* the `Web*` definitions embed the browser-only simulation `WebBridge`;
* `bridgeConnect` and the interleaving model embed `BridgeService.connect`.
-/

namespace Bridge

/-- Untyped JavaScript values as they cross the native bridge. An object is a
field list (property lookup takes the first binding); `jundefined` is the value of
a missing property. -/
inductive JSVal where
  | jbool (b : Bool)
  | jstr (s : String)
  | jnum (n : Int)
  | jnull
  | jundefined
  | jobj (fields : List (String × JSVal))
  | jarr (elems : List JSVal)

/-- JavaScript truthiness of a value. -/
def JSVal.truthy : JSVal → Bool
  | .jbool b => b
  | .jstr s => s ≠ ""
  | .jnum n => n ≠ 0
  | .jnull => false
  | .jundefined => false
  | .jobj _ => true
  | .jarr _ => true

/-- Property access `v[k]`: first matching field of an object, `undefined`
otherwise (in the source the only property reads are on objects or arrays,
and arrays have no named `success` / `result` / `data` fields). -/
def JSVal.getField : JSVal → String → JSVal
  | .jobj fields, k =>
    match fields.find? (fun f => f.fst = k) with
    | some f => f.snd
    | none => .jundefined
  | _, _ => .jundefined

/-- JavaScript strict equality `v === true`. -/
def JSVal.isTrue : JSVal → Bool
  | .jbool b => b
  | _ => false

/-- `WindowsBridge.parseBooleanResponse` (WindowsBridge.ts lines 279-293):
booleans pass through; a string is compared lowercased against `"true"` and
verbatim against `"1"`; a truthy value of typeof `object` (object or array,
`null` is falsy) yields the truthiness of its `success` field; everything
else is `false`. -/
def parseBooleanResponse_windows : JSVal → Bool
  | .jbool b => b
  | .jstr s => s.toLower == "true" || s == "1"
  | .jobj fields => (JSVal.jobj fields).getField "success" |>.truthy
  | .jarr elems => (JSVal.jarr elems).getField "success" |>.truthy
  | .jnum _ => false
  | .jnull => false
  | .jundefined => false

/-- `AndroidBridge.parseBooleanResponse` (AndroidBridge, lines 302-326):
booleans pass through; a lowercased string is compared against `"true"`,
`"1"` and `"success"`; a number maps to `≠ 0`; a truthy typeof-`object`
value yields `success === true || result === true` (strict equality);
everything else is `false`. -/
def parseBooleanResponse_android : JSVal → Bool
  | .jbool b => b
  | .jstr s =>
    let lower := s.toLower
    lower == "true" || lower == "1" || lower == "success"
  | .jnum n => n ≠ 0
  | .jobj fields =>
    ((JSVal.jobj fields).getField "success").isTrue
      || ((JSVal.jobj fields).getField "result").isTrue
  | .jarr elems =>
    ((JSVal.jarr elems).getField "success").isTrue
      || ((JSVal.jarr elems).getField "result").isTrue
  | .jnull => false
  | .jundefined => false

/-! ## Event Bus (`utils/EventEmitter.ts`)

`listeners : Map<string, Set<EventCallback>>`. Callbacks are modelled by
`Nat` identities (JS compares callbacks by object identity). A JS `Set` is
modelled by a duplicate-free list: `add` is a no-op when the element is
already present. -/

/-- JS `Set.add`: append the element unless it is already a member. -/
def setAdd (l : List Nat) (x : Nat) : List Nat :=
  if x ∈ l then l else l ++ [x]

/-- State of `EventEmitter`: the `listeners` map as an association list. -/
structure EventEmitter where
  listeners : List (String × List Nat)

/-- The listener map after `on(event, cb)`: create the entry for `event` if
absent, then `Set.add` the callback (EventEmitter.ts lines 22-37). -/
def onUpdate : List (String × List Nat) → String → Nat → List (String × List Nat)
  | [], event, cb => [(event, [cb])]
  | (k, s) :: rest, event, cb =>
    if k = event then (k, setAdd s cb) :: rest
    else (k, s) :: onUpdate rest event cb

/-- `EventEmitter.on`. -/
def EventEmitter.on (em : EventEmitter) (event : String) (cb : Nat) : EventEmitter :=
  ⟨onUpdate em.listeners event cb⟩

/-- The listener map after running the unsubscriber returned by `on`:
`callbacks.delete(callback)` on the event's set, deleting the map entry when
the set becomes empty (EventEmitter.ts lines 31-36). -/
def offUpdate : List (String × List Nat) → String → Nat → List (String × List Nat)
  | [], _, _ => []
  | (k, s) :: rest, event, cb =>
    if k = event then
      let s2 := s.filter (fun x => x ≠ cb)
      if s2.isEmpty then rest else (k, s2) :: rest
    else (k, s) :: offUpdate rest event cb

/-- Running the unsubscriber that `on event cb` returned. -/
def EventEmitter.unsubscribe (em : EventEmitter) (event : String) (cb : Nat) : EventEmitter :=
  ⟨offUpdate em.listeners event cb⟩

/-- `EventEmitter.listenerCount(event)`: size of the event's callback set,
`0` when the event has no entry (EventEmitter.ts lines 103-106). -/
def EventEmitter.listenerCountFor (em : EventEmitter) (event : String) : Nat :=
  match em.listeners.find? (fun e => e.fst = event) with
  | some e => e.snd.length
  | none => 0

/-- The empty emitter (fresh `new EventEmitter()`). -/
def EventEmitter.empty : EventEmitter := ⟨[]⟩

/-! ## Pending-request machinery (`BridgeStrategy`)

`generateMessageId` returns the string `msg_${Date.now()}_${++counter}`;
ids are modelled as the pair (timestamp, counter), which the string encodes
injectively (the counter rendering contains no underscore). -/

/-- A message id `msg_${time}_${seq}`. -/
structure MsgId where
  time : Nat
  seq : Nat
deriving DecidableEq, Repr

/-- `BridgeStrategy.generateMessageId`: increments `messageIdCounter` and
returns the id built from the current time and the incremented counter
(the new counter value is returned alongside). -/
def generateMessageId (now : Nat) (counter : Nat) : MsgId × Nat :=
  (⟨now, counter + 1⟩, counter + 1)

/-- Final outcome of a pending request's promise. -/
inductive Settled where
  | resolvedWith (v : JSVal)
  | rejectedWith (e : String)

/-- Promise settlement is compared only by shape in the theorems below. -/
def Settled.isRejectedWith : Settled → String → Bool
  | .rejectedWith e, msg => e = msg
  | _, _ => false

/-- The per-strategy pending-request state: `table` is the key set of the
`pendingRequests` map, `settled` records the outcome of each settled
request's promise (a promise settles at most once). -/
structure PendingState where
  table : List MsgId
  settled : List (MsgId × Settled)

/-- Outcome lookup: first settlement recorded for the id. -/
def findSettled : List (MsgId × Settled) → MsgId → Option Settled
  | [], _ => none
  | (i, o) :: rest, id => if i = id then some o else findSettled rest id

/-- Remove an id from the pending table (`pendingRequests.delete`; a JS Map
holds each key at most once, so deleting the key removes every table
occurrence of it). -/
def eraseId (l : List MsgId) (id : MsgId) : List MsgId :=
  l.filter (fun x => x ≠ id)

/-- The rejection reason used by the timeout handler in
`BridgeStrategy.createPendingRequest`; every call site in the repository
passes the default 5000 ms deadline. -/
def timeoutReason : String := "Request timeout after 5000ms"

/-- The rejection reason used by `BridgeStrategy.cleanup`. -/
def connectionClosedReason : String := "Connection closed"

/-- `BridgeStrategy.createPendingRequest` (WindowsBridge.ts lines 406-422):
stores resolve/reject under `messageId` and arms the timeout. -/
def createPendingRequest (st : PendingState) (id : MsgId) : PendingState :=
  { st with table := st.table ++ [id] }

/-- The armed timeout firing (the callback in `createPendingRequest`):
deletes the table entry and rejects the promise. The timer only runs if it
was never cleared, and every settlement path (`resolvePendingRequest`,
`rejectPendingRequest`, `cleanup`) clears it, so firing is a no-op once the
request has settled. -/
def fireTimeout (st : PendingState) (id : MsgId) : PendingState :=
  if (findSettled st.settled id).isSome then st
  else
    { table := eraseId st.table id
      settled := (id, .rejectedWith timeoutReason) :: st.settled }

/-- `BridgeStrategy.resolvePendingRequest` (lines 427-434): if the id is in
the table, clear the timer, resolve the promise with the payload and delete
the entry; otherwise do nothing. -/
def resolvePendingRequest (st : PendingState) (id : MsgId) (v : JSVal) : PendingState :=
  if id ∈ st.table then
    { table := eraseId st.table id
      settled := (id, .resolvedWith v) :: st.settled }
  else st

/-- `BridgeStrategy.cleanup` (lines 466-473): reject every pending request
with "Connection closed" (clearing its timer) and clear the table. -/
def cleanup (st : PendingState) : PendingState :=
  { table := []
    settled := st.table.map (fun id => (id, .rejectedWith connectionClosedReason)) ++ st.settled }

/-- JS `String.prototype.endsWith`: does `s` end with `post`? (Stated over
the character lists so that it evaluates in the kernel.) -/
def strEndsWith (s post : String) : Bool :=
  post.data.isSuffixOf s.data

/-- Wire message shape (`BridgeMessage` in bridge.types.ts): `event`, `data`,
`timestamp`, optional `messageId`. An absent or empty `event` is the falsy
case of `if (!data.event) return`. -/
structure BridgeMessage where
  event : String
  data : JSVal
  timestamp : Nat
  messageId : Option MsgId

/-- `handleMessage` — identical in `WindowsBridge` (lines 233-250) and
`AndroidBridge` (lines 243-260): return early on a falsy `event`; when the
event ends in "Response" and the carried `messageId` is in the pending
table, resolve that pending request with `data.data`; in every non-early
case also emit the raw event with its payload on the event bus. Returns the
new pending state and the list of (name, payload) bus publications. -/
def handleMessage (st : PendingState) (msg : BridgeMessage) :
    PendingState × List (String × JSVal) :=
  if msg.event = "" then (st, [])
  else
    let st' :=
      if strEndsWith msg.event "Response" then
        match msg.messageId with
        | some id => if id ∈ st.table then resolvePendingRequest st id msg.data else st
        | none => st
      else st
    (st', [(msg.event, msg.data)])

/-! ## Environment detection (`PlatformDetector.ts`) -/

/-- Platform kinds (`PlatformType` in platform.types.ts). -/
inductive PlatformType where
  | windows
  | android
  | electron
  | web
deriving DecidableEq, Repr

/-- Detection confidence levels. -/
inductive Confidence where
  | high
  | medium
  | low
deriving DecidableEq, Repr

/-- `PlatformDetectionResult`: platform, confidence, and the diagnostic
label of the probe that matched. -/
structure PlatformDetectionResult where
  platform : PlatformType
  confidence : Confidence
  detectionMethod : String
deriving DecidableEq, Repr

/-- Results of the six independent host probes that `detect` consumes
(each probe is a pure read of the `window` object):
`winReceiveMessage` = `hasWindowsReceiveMessage` (a desktop receive
function exists); `androidObject` = `hasAndroidObject` (the mobile object
exposes one of the four known RPC method names); `asyncBridge` =
`hasAsyncBridge` (the shared generic async-call object exposes one of the
three RPC methods); `chromeWebView` = `hasChromeWebView` (the desktop
webview post-message channel exists); `electronAPI` = `hasElectronAPI`
(the alternate embedded-app send/on channel pair exists); `androidUA` =
`isAndroidUserAgent` (the user agent matches /Android/i). -/
structure HostEnv where
  winReceiveMessage : Bool
  androidObject : Bool
  asyncBridge : Bool
  chromeWebView : Bool
  electronAPI : Bool
  androidUA : Bool

/-- `PlatformDetector.detect` (PlatformDetector, lines 27-97): the
priority-ordered cascade of eight rules, first match winning. -/
def detect (env : HostEnv) : PlatformDetectionResult :=
  if env.winReceiveMessage then
    ⟨.windows, .high, "Windows.receiveMessage"⟩
  else if env.androidObject then
    ⟨.android, .high, "Android object methods"⟩
  else if env.asyncBridge && env.androidUA then
    ⟨.android, .high, "asyncBridge + Android UserAgent"⟩
  else if env.asyncBridge && !env.chromeWebView then
    ⟨.android, .medium, "asyncBridge without chrome.webview"⟩
  else if env.asyncBridge && env.chromeWebView then
    ⟨.windows, .high, "asyncBridge + chrome.webview"⟩
  else if env.chromeWebView then
    ⟨.windows, .medium, "chrome.webview only"⟩
  else if env.electronAPI then
    ⟨.electron, .high, "electronAPI"⟩
  else
    ⟨.web, .low, "fallback"⟩

/-- The eight rules of spec §4.2, written as an ordered guard/result list —
this definition follows the SPEC's words, to be compared with `detect`. -/
def specRules (env : HostEnv) : List (Bool × PlatformDetectionResult) :=
  [ (env.winReceiveMessage, ⟨.windows, .high, "Windows.receiveMessage"⟩),
    (env.androidObject, ⟨.android, .high, "Android object methods"⟩),
    (env.asyncBridge && env.androidUA, ⟨.android, .high, "asyncBridge + Android UserAgent"⟩),
    (env.asyncBridge && !env.chromeWebView, ⟨.android, .medium, "asyncBridge without chrome.webview"⟩),
    (env.asyncBridge && env.chromeWebView, ⟨.windows, .high, "asyncBridge + chrome.webview"⟩),
    (env.chromeWebView, ⟨.windows, .medium, "chrome.webview only"⟩),
    (env.electronAPI, ⟨.electron, .high, "electronAPI"⟩) ]

/-- First rule whose guard holds wins; otherwise the browser-only fallback
(spec §4.2 rule 8). -/
def firstMatch : List (Bool × PlatformDetectionResult) → PlatformDetectionResult
  | [] => ⟨.web, .low, "fallback"⟩
  | (g, r) :: rest => if g then r else firstMatch rest

/-- The spec-side detector: evaluate the §4.2 rules in order. -/
def detectSpec (env : HostEnv) : PlatformDetectionResult :=
  firstMatch (specRules env)

/-! ## Correlation-based send paths (`WindowsBridge` / `AndroidBridge`) -/

/-- The outgoing wire message, the id the pending request was registered
under, and the strategy state after the send. -/
structure RoundTripSend where
  wire : BridgeMessage
  pendingId : MsgId
  counterAfter : Nat
  pending : PendingState

/-- `WindowsBridge.getStudentList` over the PostMessage round trip
(WindowsBridge.ts lines 99-122): line 100 generates `messageId`; line 114
calls `createMessage('getStudentList', {})`, which generates ANOTHER id and
puts that one in the wire message; line 115 registers the pending request
under the line-100 id. (The `studentPicked` and `studentRemoved` round
trips have the same structure.) -/
def windowsGetStudentListSend (now : Nat) (counter : Nat) (st : PendingState) :
    RoundTripSend :=
  let g1 := generateMessageId now counter
  let messageId := g1.fst
  let g2 := generateMessageId now g1.snd
  let wire : BridgeMessage :=
    { event := "getStudentList", data := .jobj [], timestamp := now,
      messageId := some g2.fst }
  { wire := wire
    pendingId := messageId
    counterAfter := g2.snd
    pending := createPendingRequest st messageId }

/-- `AndroidBridge.getStudentList` over the `receiveMessage` round trip
(AndroidBridge, lines 99-112): `createMessage` builds the wire message and
the pending request is registered under `message.messageId!` — the id the
wire actually carries. -/
def androidGetStudentListSend (now : Nat) (counter : Nat) (st : PendingState) :
    RoundTripSend :=
  let g1 := generateMessageId now counter
  let wire : BridgeMessage :=
    { event := "getStudentList", data := .jobj [], timestamp := now,
      messageId := some g1.fst }
  { wire := wire
    pendingId := g1.fst
    counterAfter := g1.snd
    pending := createPendingRequest st g1.fst }

/-! ## Browser-only simulation (`WebBridge.ts`) -/

/-- A roster entry (`Student` in bridge.types.ts). -/
structure Student where
  studentId : String
  name : String
  seatNumber : Option String
deriving DecidableEq, Repr

/-- The fixed seed roster `MOCK_STUDENTS` (WebBridge.ts lines 17-38). -/
def MOCK_STUDENTS : List Student :=
  [ ⟨"1", "漩渦鳴人", some "1"⟩,
    ⟨"2", "宇智波佐助", some "2"⟩,
    ⟨"3", "春野櫻", some "3"⟩,
    ⟨"4", "旗木卡卡西", some "4"⟩,
    ⟨"5", "路飛", some "5"⟩,
    ⟨"6", "索隆", some "6"⟩,
    ⟨"7", "娜美", some "7"⟩,
    ⟨"8", "香吉士", some "8"⟩,
    ⟨"9", "蒙其·D·魯夫", some "9"⟩,
    ⟨"10", "喬巴", some "10"⟩,
    ⟨"11", "艾斯", some "11"⟩,
    ⟨"12", "黑崎一護", some "12"⟩,
    ⟨"13", "朽木露琪亞", some "13"⟩,
    ⟨"14", "日番谷冬獅郎", some "14"⟩,
    ⟨"15", "夜神月", some "15"⟩,
    ⟨"16", "L", some "16"⟩,
    ⟨"17", "愛德華·艾力克", some "17"⟩,
    ⟨"18", "阿爾馮斯·艾力克", some "18"⟩,
    ⟨"19", "桐人", some "19"⟩,
    ⟨"20", "亞絲娜", some "20"⟩ ]

/-- Events the simulation publishes on the bus, mirroring the emitted
object shapes of WebBridge.ts. -/
inductive WebEvent where
  | listResponse (students : List Student)
  | pickedResponse (studentId : String) (student : Student)
  | removedResponse (studentId : String) (student : Student)
  | errorEvent (message : String) (code : String)
deriving DecidableEq, Repr

/-- The error message of the minimum-size rejection (WebBridge.ts line 169). -/
def minStudentsMessage : String := "無法移除學生：至少需要保留 2 名學生"

/-- The dedicated minimum-size error code (WebBridge.ts line 170). -/
def minStudentsCode : String := "MIN_STUDENTS_REQUIRED"

/-- Mutable simulation state of `WebBridge`: the roster copy, the removed-id
set and the selected-id set (JS `Set`s, modelled as duplicate-free lists). -/
structure WebState where
  mockStudents : List Student
  removedStudents : List String
  selectedStudents : List String
deriving DecidableEq, Repr

/-- State right after `WebBridge.connect()` (fields as initialized at
construction; `connect` itself only flips the connection status). -/
def webInit : WebState :=
  ⟨MOCK_STUDENTS, [], []⟩

/-- The active (non-removed) roster, as computed throughout WebBridge.ts:
`mockStudents.filter(s => !removedStudents.has(s.studentId))`. -/
def activeStudents (st : WebState) : List Student :=
  st.mockStudents.filter (fun s => s.studentId ∉ st.removedStudents)

/-- JS `Set.add` on a string set. -/
def strSetAdd (l : List String) (x : String) : List String :=
  if x ∈ l then l else l ++ [x]

/-- JS `Set.delete` on a string set. -/
def strSetDelete (l : List String) (x : String) : List String :=
  l.filter (fun y => y ≠ x)

/-- `WebBridge.getStudentList` (lines 86-103): returns the active roster
and emits `getStudentListResponse` carrying it. -/
def webGetStudentList (st : WebState) : List Student × WebState × List WebEvent :=
  let active := activeStudents st
  (active, st, [.listResponse active])

/-- `WebBridge.studentPicked` (lines 105-138): unknown id → `false`;
already-removed id → `false`; otherwise record the selection, emit
`studentPickedResponse` with the matching entry and return `true`. -/
def webStudentPicked (st : WebState) (studentId : String) :
    Bool × WebState × List WebEvent :=
  match st.mockStudents.find? (fun s => s.studentId = studentId) with
  | none => (false, st, [])
  | some student =>
    if studentId ∈ st.removedStudents then (false, st, [])
    else
      (true,
       { st with selectedStudents := strSetAdd st.selectedStudents studentId },
       [.pickedResponse studentId student])

/-- `WebBridge.studentRemoved` (lines 140-193): unknown id → `false`;
already-removed id → `false`; active count at or below 2 → emit the
minimum-size error event and return `false` leaving the state unchanged;
otherwise mark removed, drop any selection, emit `studentRemovedResponse`
and return `true`. -/
def webStudentRemoved (st : WebState) (studentId : String) :
    Bool × WebState × List WebEvent :=
  match st.mockStudents.find? (fun s => s.studentId = studentId) with
  | none => (false, st, [])
  | some student =>
    if studentId ∈ st.removedStudents then (false, st, [])
    else if (activeStudents st).length ≤ 2 then
      (false, st, [.errorEvent minStudentsMessage minStudentsCode])
    else
      (true,
       { st with
          removedStudents := strSetAdd st.removedStudents studentId,
          selectedStudents := strSetDelete st.selectedStudents studentId },
       [.removedResponse studentId student])

/-- A reachable simulation state with exactly 3 active entries: the seed
roster after removal of the 17 entries with ids "4" through "20". -/
def webStateThreeActive : WebState :=
  ⟨MOCK_STUDENTS,
   ["4", "5", "6", "7", "8", "9", "10", "11", "12", "13", "14", "15", "16",
    "17", "18", "19", "20"],
   []⟩

/-! ## Native strategies' removal paths (no roster-size check)

`WindowsBridge.studentRemoved` (lines 149-172) and
`AndroidBridge.studentRemoved` (lines 158-197) forward the request to the
host (preferred convention first) and return the host's answer through
`parseBooleanResponse`; neither consults any roster state nor emits any
error event on the bus. -/

/-- `WindowsBridge.studentRemoved` over the AsyncBridge convention (its
preferred one when `asyncBridge.studentRemoved` exists): the host call's
result is normalized and returned; no bus event is emitted. -/
def windowsStudentRemovedViaAsyncBridge (hostResult : JSVal) :
    Bool × List WebEvent :=
  (parseBooleanResponse_windows hostResult, [])

/-- `AndroidBridge.studentRemoved` over the direct object-method convention
(its preferred one when `Android.studentRemoved` exists): the host call's
result is normalized and returned; no bus event is emitted. -/
def androidStudentRemovedViaObject (hostResult : JSVal) :
    Bool × List WebEvent :=
  (parseBooleanResponse_android hostResult, [])

/-- `WebBridge.disconnect` (lines 69-79): flip the status, run the shared
`cleanup` over the pending table, and reset the mock data to the seed
roster with empty removed/selected sets. -/
def webDisconnect (_wst : WebState) (ps : PendingState) : WebState × PendingState :=
  (webInit, cleanup ps)

/-! ## Bridge Coordinator (`BridgeService.ts`) -/

/-- How a `connect()` call's promise ends. -/
inductive ConnectOutcome where
  | fulfilled
  | rejectedWith (reason : String)
deriving DecidableEq, Repr

/-- Externally visible effects of one `BridgeService.connect()` call. -/
structure ConnectResult where
  outcome : ConnectOutcome
  busEvents : List String
  retryScheduled : Bool
  retryCountAfter : Nat
  connectedNow : Bool
deriving DecidableEq, Repr

/-- `BridgeService.maxRetries`. -/
def maxRetries : Nat := 3

/-- `BridgeService.connect` (lines 50-101) as a function of the pre-call
retry counter and of whether the selected strategy's `connect()` throws and
whether the forced Web fallback's `connect()` throws. Success: reset the
counter to 0 and emit `connected`. Failure with budget left: increment the
counter, schedule a retry timer and RETURN NORMALLY (the catch swallows the
error; nothing is emitted on the bus — `handleError` is only called from
the RPC methods). Failure with the budget exhausted: force the Web
strategy; if its `connect()` succeeds, return normally (connected, nothing
emitted); if it also throws, rethrow — the only rejecting path. -/
def bridgeConnect (retryCount : Nat) (strategyConnectFails fallbackConnectFails : Bool) :
    ConnectResult :=
  if !strategyConnectFails then
    { outcome := .fulfilled, busEvents := ["connected"], retryScheduled := false,
      retryCountAfter := 0, connectedNow := true }
  else if retryCount < maxRetries then
    { outcome := .fulfilled, busEvents := [], retryScheduled := true,
      retryCountAfter := retryCount + 1, connectedNow := false }
  else if !fallbackConnectFails then
    { outcome := .fulfilled, busEvents := [], retryScheduled := false,
      retryCountAfter := retryCount, connectedNow := true }
  else
    { outcome := .rejectedWith "fallback connect failed", busEvents := [],
      retryScheduled := false, retryCountAfter := retryCount, connectedNow := false }

/-- Coordinator state for the re-entrancy analysis: the `strategy` field
(instances numbered in construction order), how many strategy instances
`createStrategy` has constructed, and which instances are live (constructed
and never torn down by `disconnect`). -/
structure CoordState where
  strategy : Option Nat
  constructedCount : Nat
  liveInstances : List Nat
deriving DecidableEq, Repr

/-- Fresh coordinator (`BridgeService.getInstance()` on first use). -/
def coordInit : CoordState := ⟨none, 0, []⟩

/-- The synchronous prefix of `BridgeService.connect` (lines 50-63): run
the detector, construct a fresh strategy via `createStrategy` and assign it
to `this.strategy`, then suspend at `await this.strategy.connect()`. No
field is consulted to detect an in-flight attempt before constructing, and
the assignment overwrites the previous strategy reference without calling
its `disconnect`, so a previously constructed instance stays live. -/
def connectEntryPhase (st : CoordState) : CoordState :=
  { strategy := some (st.constructedCount + 1),
    constructedCount := st.constructedCount + 1,
    liveInstances := st.liveInstances ++ [st.constructedCount + 1] }

/-- Steps of a `connect()` call at await granularity: the synchronous
prefix up to `await strategy.connect()`, and the resumption after that
await completes (which touches none of the fields modelled here). -/
inductive CoordStep where
  | entryPhase
  | resumeAwait
deriving DecidableEq, Repr

/-- Run one step. -/
def coordStep (st : CoordState) : CoordStep → CoordState
  | .entryPhase => connectEntryPhase st
  | .resumeAwait => st

/-- Run a cooperative schedule of steps. -/
def runSchedule (st : CoordState) : List CoordStep → CoordState
  | [] => st
  | s :: rest => runSchedule (coordStep st s) rest

/-- Two overlapping `connect()` calls: call A runs its synchronous prefix
and suspends at `await strategy.connect()` (for the Web strategy that
await really suspends, on `simulateDelay(500)`); call B enters `connect()`
while A is still Connecting and runs its own synchronous prefix; both
awaits then resume. A legal schedule of the single-threaded JS event loop. -/
def overlappedConnectSchedule : List CoordStep :=
  [.entryPhase, .entryPhase, .resumeAwait, .resumeAwait]

/-! ## Theorems -/

/-- Claim C3: for every combination of host probe results, `detect` returns
exactly one environment kind with its confidence, equal to evaluating the
eight §4.2 rules in priority order with the first match winning; a desktop
receive-function present together with a mobile native object (and any
state of the remaining probes) yields the desktop kind with High
confidence; and with no probe matching, the result is browser-only with Low
confidence and signal "fallback". -/
theorem c3_detect_priority_cascade :
    (∀ env : HostEnv, detect env = detectSpec env) ∧
    (∀ ab cw el ua : Bool,
      detect ⟨true, true, ab, cw, el, ua⟩
        = ⟨.windows, .high, "Windows.receiveMessage"⟩) ∧
    detect ⟨false, false, false, false, false, false⟩
      = ⟨.web, .low, "fallback"⟩ := by
  refine ⟨?_, ?_, rfl⟩
  · intro env
    obtain ⟨w, a, ab, cw, el, ua⟩ := env
    cases w <;> cases a <;> cases ab <;> cases cw <;> cases el <;> cases ua <;> rfl
  · intro ab cw el ua
    cases ab <;> cases cw <;> cases el <;> cases ua <;> rfl

/-- Claim C7: in the browser-only simulation, after connect the roster is
the fixed 20-entry seed roster; picking id "5" returns `true` and publishes
the pick-confirmation event carrying the matching entry; removing "5" then
returns `true` leaving 19 active entries; and a repeated removal of "5"
returns `false` (it is already removed) leaving the state unchanged. -/
theorem c7_web_simulation_end_to_end :
    (webGetStudentList webInit).fst = MOCK_STUDENTS ∧
    MOCK_STUDENTS.length = 20 ∧
    (webStudentPicked webInit "5").fst = true ∧
    (webStudentPicked webInit "5").snd.snd
      = [.pickedResponse "5" ⟨"5", "路飛", some "5"⟩] ∧
    (webStudentRemoved (webStudentPicked webInit "5").snd.fst "5").fst = true ∧
    (activeStudents
        (webStudentRemoved (webStudentPicked webInit "5").snd.fst "5").snd.fst).length
      = 19 ∧
    (webStudentRemoved
        (webStudentRemoved (webStudentPicked webInit "5").snd.fst "5").snd.fst
        "5").fst = false ∧
    (webStudentRemoved
        (webStudentRemoved (webStudentPicked webInit "5").snd.fst "5").snd.fst
        "5").snd.fst
      = (webStudentRemoved (webStudentPicked webInit "5").snd.fst "5").snd.fst := by
  refine ⟨rfl, rfl, rfl, rfl, rfl, rfl, rfl, rfl⟩

/-- Claim C2 (code bug in `WindowsBridge`): on the PostMessage round trip,
`WindowsBridge.getStudentList` generates one id at line 100, registers the
pending request under it, but sends a wire message whose `messageId` is a
SECOND id freshly generated inside `createMessage` at line 114 — at time 0
with a fresh counter, the pending id is (0,1) while the wire carries (0,2).
A host response echoing the wire id is republished on the bus but leaves
the pending request in the table, unresolved (it can only time out).
`AndroidBridge.getStudentList` registers the pending request under
`message.messageId!`, the id the wire actually carries, which is the
behavior the claim describes. -/
theorem c2_windows_correlation_id_mismatch :
    (windowsGetStudentListSend 0 0 ⟨[], []⟩).pendingId = ⟨0, 1⟩ ∧
    (windowsGetStudentListSend 0 0 ⟨[], []⟩).wire.messageId = some ⟨0, 2⟩ ∧
    some (windowsGetStudentListSend 0 0 ⟨[], []⟩).pendingId
      ≠ (windowsGetStudentListSend 0 0 ⟨[], []⟩).wire.messageId ∧
    (handleMessage (windowsGetStudentListSend 0 0 ⟨[], []⟩).pending
        ⟨"getStudentListResponse", .jarr [], 1, some ⟨0, 2⟩⟩).fst.table
      = [⟨0, 1⟩] ∧
    findSettled
        (handleMessage (windowsGetStudentListSend 0 0 ⟨[], []⟩).pending
          ⟨"getStudentListResponse", .jarr [], 1, some ⟨0, 2⟩⟩).fst.settled
        ⟨0, 1⟩ = none ∧
    (handleMessage (windowsGetStudentListSend 0 0 ⟨[], []⟩).pending
        ⟨"getStudentListResponse", .jarr [], 1, some ⟨0, 2⟩⟩).snd
      = [("getStudentListResponse", .jarr [])] ∧
    (androidGetStudentListSend 0 0 ⟨[], []⟩).wire.messageId
      = some (androidGetStudentListSend 0 0 ⟨[], []⟩).pendingId := by
  refine ⟨rfl, rfl, by decide, rfl, rfl, rfl, rfl⟩

/-- Claim C8 counterexample: `WindowsBridge.parseBooleanResponse` maps the
number 1 to `false` (the claim requires `true`); it also maps an object
whose `result` field is `true` to `false` (it only reads `success`), and
`AndroidBridge.parseBooleanResponse` maps an object whose `success` field
is the truthy number 1 to `false` (it requires strict `=== true`). -/
theorem c8_counterexample_boolean_normalization :
    parseBooleanResponse_windows (.jnum 1) = false ∧
    parseBooleanResponse_windows (.jobj [("result", .jbool true)]) = false ∧
    parseBooleanResponse_android (.jobj [("success", .jnum 1)]) = false := by
  refine ⟨rfl, rfl, rfl⟩

/-- Claim C8 as amended: both normalizers map booleans to themselves and
are total (unrecognized shapes give `false`), but they differ beyond that:
the Android one maps a string to `true` iff it lowercases to "true", "1" or
"success", maps a number to `true` iff it is nonzero, and maps an object to
`true` iff its `success` or `result` field is strictly `true`; the Windows
one maps a string to `true` iff it lowercases to "true" or equals "1",
maps every number to `false`, and maps an object to `true` iff its
`success` field is truthy (the `result` field is ignored). -/
theorem c8_amended_boolean_normalization (b : Bool) (n : Int) (s : String)
    (fields : List (String × JSVal)) :
    parseBooleanResponse_windows (.jbool b) = b ∧
    parseBooleanResponse_android (.jbool b) = b ∧
    parseBooleanResponse_windows (.jnum n) = false ∧
    parseBooleanResponse_android (.jnum n) = decide (n ≠ 0) ∧
    parseBooleanResponse_windows (.jstr s)
      = (s.toLower == "true" || s == "1") ∧
    parseBooleanResponse_android (.jstr s)
      = (s.toLower == "true" || s.toLower == "1" || s.toLower == "success") ∧
    parseBooleanResponse_windows (.jobj fields)
      = ((JSVal.jobj fields).getField "success").truthy ∧
    parseBooleanResponse_android (.jobj fields)
      = (((JSVal.jobj fields).getField "success").isTrue
          || ((JSVal.jobj fields).getField "result").isTrue) ∧
    parseBooleanResponse_windows .jnull = false ∧
    parseBooleanResponse_android .jnull = false ∧
    parseBooleanResponse_windows .jundefined = false ∧
    parseBooleanResponse_android .jundefined = false := by
  refine ⟨rfl, rfl, rfl, rfl, rfl, rfl, rfl, rfl, rfl, rfl, rfl, rfl⟩

/-- Claim C4 counterexample: with two `connect()` calls interleaved at the
single await point (the second entering while the first is still awaiting
its strategy's `connect()`, i.e. still Connecting), the coordinator
constructs TWO strategy instances and both are live afterwards — it never
detects the in-flight attempt. -/
theorem c4_counterexample_reentrant_connect :
    (runSchedule coordInit overlappedConnectSchedule).constructedCount = 2 ∧
    (runSchedule coordInit overlappedConnectSchedule).liveInstances = [1, 2] ∧
    (runSchedule coordInit overlappedConnectSchedule).strategy = some 2 := by
  refine ⟨rfl, rfl, rfl⟩

/-- Claim C4 as amended: `BridgeService.connect` has no "already
connecting" guard — from ANY coordinator state, the overlapped two-call
schedule constructs two fresh strategy instances, keeps every previously
live instance live (the overwritten strategy is never torn down), and
leaves the second new instance as the active strategy. -/
theorem c4_amended_no_reentrancy_guard (st : CoordState) :
    (runSchedule st overlappedConnectSchedule).constructedCount
      = st.constructedCount + 2 ∧
    (runSchedule st overlappedConnectSchedule).liveInstances
      = st.liveInstances ++ [st.constructedCount + 1, st.constructedCount + 2] ∧
    (runSchedule st overlappedConnectSchedule).strategy
      = some (st.constructedCount + 2) := by
  refine ⟨rfl, ?_, rfl⟩
  simp [runSchedule, coordStep, connectEntryPhase, overlappedConnectSchedule]

/-- The element just `Set.add`-ed is a member. -/
lemma mem_setAdd_self (s : List Nat) (x : Nat) : x ∈ setAdd s x := by
  by_cases h : x ∈ s <;> simp [setAdd, h]

/-- `Set.add` of an element already present is a no-op. -/
lemma setAdd_of_mem {s : List Nat} {x : Nat} (h : x ∈ s) : setAdd s x = s := by
  simp [setAdd, h]

/-- Registering the same callback on the same event twice leaves the same
listener map as registering it once. -/
lemma onUpdate_onUpdate (ls : List (String × List Nat)) (e : String) (cb : Nat) :
    onUpdate (onUpdate ls e cb) e cb = onUpdate ls e cb := by
  induction ls with
  | nil => simp [onUpdate, setAdd]
  | cons head tail ih =>
    obtain ⟨k, s⟩ := head
    by_cases h : k = e
    · subst h
      simp [onUpdate, setAdd_of_mem (mem_setAdd_self s cb)]
    · simp [onUpdate, h, ih]

/-- Claim C9 counterexample: registering the same handler object twice on
the same event leaves ONE registration, not two — the handler count is 1,
and invoking one of the two (behaviorally identical) unsubscribe functions
removes the handler entirely, so the "other registration" is not active. -/
theorem c9_counterexample_duplicate_subscribe :
    ((EventEmitter.empty.on "rosterLoaded" 7).on "rosterLoaded" 7).listenerCountFor
        "rosterLoaded" = 1 ∧
    ((EventEmitter.empty.on "rosterLoaded" 7).on "rosterLoaded" 7).listenerCountFor
        "rosterLoaded" ≠ 2 ∧
    (((EventEmitter.empty.on "rosterLoaded" 7).on "rosterLoaded" 7).unsubscribe
        "rosterLoaded" 7).listenerCountFor "rosterLoaded" = 0 := by
  refine ⟨by decide, by decide, by decide⟩

/-- Claim C9 as amended: the listener sets are JS `Set`s, so registering
the same handler object twice on the same event is permitted but the
second registration is a no-op — the emitter state equals the
once-registered state for EVERY starting emitter; on a fresh emitter the
handler count after the double registration is 1, and one unsubscribe call
removes the registration completely (count 0). -/
theorem c9_amended_subscribe_is_idempotent (em : EventEmitter) (event : String)
    (cb : Nat) :
    (em.on event cb).on event cb = em.on event cb ∧
    ((EventEmitter.empty.on event cb).on event cb).listenerCountFor event = 1 ∧
    (((EventEmitter.empty.on event cb).on event cb).unsubscribe event cb).listenerCountFor
        event = 0 := by
  refine ⟨?_, ?_, ?_⟩
  · simp [EventEmitter.on, onUpdate_onUpdate]
  · simp [EventEmitter.empty, EventEmitter.on, EventEmitter.listenerCountFor,
      onUpdate, setAdd]
  · simp [EventEmitter.empty, EventEmitter.on, EventEmitter.unsubscribe,
      EventEmitter.listenerCountFor, onUpdate, offUpdate, setAdd]

/-- Claim C10: while the retry budget is not exhausted, a failing strategy
connect leaves the coordinator's `connect()` promise FULFILLED — nothing is
published on the bus, the bridge is not connected, the retry counter is
incremented and a timer-driven retry is scheduled; a same-state call whose
strategy connect succeeds (or fails within budget) also fulfills; and for
every input, the promise rejects exactly when the strategy connect fails
with the budget exhausted and the forced Web fallback's connect also
fails. -/
theorem c10_connect_retry_policy (retryCount rc2 : Nat) (fb sf2 fb2 sf3 fb3 : Bool)
    (h : retryCount < maxRetries) :
    bridgeConnect retryCount true fb =
      { outcome := .fulfilled, busEvents := [], retryScheduled := true,
        retryCountAfter := retryCount + 1, connectedNow := false } ∧
    (bridgeConnect retryCount sf2 fb2).outcome = .fulfilled ∧
    ((bridgeConnect rc2 sf3 fb3).outcome ≠ ConnectOutcome.fulfilled ↔
      sf3 = true ∧ maxRetries ≤ rc2 ∧ fb3 = true) := by
  refine ⟨by simp [bridgeConnect, h], ?_, ?_⟩
  · cases sf2 <;> simp [bridgeConnect, h]
  · by_cases h2 : rc2 < maxRetries
    all_goals cases sf3 <;> cases fb3 <;> simp [bridgeConnect, h2] <;> omega

/-- Witness for `c10_connect_retry_policy` at retry count 1 (budget not yet
exhausted) and at an exhausted-budget rejection instance. -/
theorem c10_connect_retry_policy_witness :
    1 < maxRetries ∧
    (bridgeConnect 1 true false =
      { outcome := .fulfilled, busEvents := [], retryScheduled := true,
        retryCountAfter := 2, connectedNow := false } ∧
    (bridgeConnect 1 false true).outcome = .fulfilled ∧
    ((bridgeConnect 3 true true).outcome ≠ ConnectOutcome.fulfilled ↔
      true = true ∧ maxRetries ≤ 3 ∧ true = true)) :=
  ⟨by decide, c10_connect_retry_policy 1 3 false false true true true (by decide)⟩

/-- Deleting a key from the pending table really removes it. -/
lemma not_mem_eraseId (l : List MsgId) (id : MsgId) : id ∉ eraseId l id := by
  simp [eraseId]

/-- Deleting a present key shrinks the pending table. -/
lemma length_eraseId_lt (id : MsgId) :
    ∀ l : List MsgId, id ∈ l → (eraseId l id).length < l.length := by
  intro l
  induction l with
  | nil => intro h; exact absurd h (List.not_mem_nil id)
  | cons a t ih =>
    intro h
    by_cases ha : a = id
    · have h1 : eraseId (a :: t) id = eraseId t id := by
        simp [eraseId, List.filter_cons, ha]
      have h2 : (eraseId t id).length ≤ t.length := by
        simp only [eraseId]
        exact List.length_filter_le _ t
      rw [h1]
      simp only [List.length_cons]
      omega
    · have h1 : eraseId (a :: t) id = a :: eraseId t id := by
        simp [eraseId, List.filter_cons, ha]
      have ht : id ∈ t := by
        rcases List.mem_cons.mp h with h2 | h2
        · exact absurd h2.symm ha
        · exact h2
      have h3 := ih ht
      rw [h1]
      simp only [List.length_cons]
      omega

/-- The settlement just recorded is the one found. -/
lemma findSettled_cons_self (rest : List (MsgId × Settled)) (id : MsgId)
    (o : Settled) : findSettled ((id, o) :: rest) id = some o := by
  simp [findSettled]

/-- Claim C5: a pending, not-yet-settled request whose timeout fires is
removed from the pending table and its promise is rejected with the
timeout error; afterwards, ANY incoming message carrying that correlation
id — in particular a late response — leaves the whole pending state
untouched (it neither resolves nor rejects anything). -/
theorem c5_timeout_then_late_response_ignored (st : PendingState) (id : MsgId)
    (v : JSVal) (ts : Nat) (ev : String)
    (hpend : id ∈ st.table) (hunsettled : findSettled st.settled id = none) :
    id ∉ (fireTimeout st id).table ∧
    (fireTimeout st id).table.length < st.table.length ∧
    findSettled (fireTimeout st id).settled id
      = some (.rejectedWith timeoutReason) ∧
    (handleMessage (fireTimeout st id) ⟨ev, v, ts, some id⟩).fst
      = fireTimeout st id := by
  have hfe : fireTimeout st id =
      { table := eraseId st.table id
        settled := (id, .rejectedWith timeoutReason) :: st.settled } := by
    simp [fireTimeout, hunsettled]
  refine ⟨?_, ?_, ?_, ?_⟩
  · rw [hfe]; exact not_mem_eraseId st.table id
  · rw [hfe]; exact length_eraseId_lt id st.table hpend
  · rw [hfe]; exact findSettled_cons_self st.settled id _
  · have hnot : id ∉ (fireTimeout st id).table := by
      rw [hfe]; exact not_mem_eraseId st.table id
    by_cases hev : ev = ""
    · simp [handleMessage, hev]
    · cases hresp : strEndsWith ev "Response" <;>
        simp [handleMessage, hev, hresp, hnot]

/-- Witness for `c5_timeout_then_late_response_ignored`: the single pending
request (0,1) times out; the late response `getStudentListResponse` for id
(0,1) is then ignored. -/
theorem c5_timeout_witness :
    ((⟨0, 1⟩ : MsgId) ∈ (PendingState.mk [⟨0, 1⟩] []).table ∧
     findSettled (PendingState.mk [⟨0, 1⟩] []).settled ⟨0, 1⟩ = none) ∧
    ((⟨0, 1⟩ : MsgId) ∉ (fireTimeout (PendingState.mk [⟨0, 1⟩] []) ⟨0, 1⟩).table ∧
     (fireTimeout (PendingState.mk [⟨0, 1⟩] []) ⟨0, 1⟩).table.length
       < (PendingState.mk [⟨0, 1⟩] []).table.length ∧
     findSettled (fireTimeout (PendingState.mk [⟨0, 1⟩] []) ⟨0, 1⟩).settled ⟨0, 1⟩
       = some (.rejectedWith timeoutReason) ∧
     (handleMessage (fireTimeout (PendingState.mk [⟨0, 1⟩] []) ⟨0, 1⟩)
         ⟨"getStudentListResponse", .jnull, 9, some ⟨0, 1⟩⟩).fst
       = fireTimeout (PendingState.mk [⟨0, 1⟩] []) ⟨0, 1⟩) :=
  ⟨⟨by decide, rfl⟩,
   c5_timeout_then_late_response_ignored (PendingState.mk [⟨0, 1⟩] []) ⟨0, 1⟩
     .jnull 9 "getStudentListResponse" (by decide) rfl⟩

/-- Every id of `l` is found in the cleanup-settled list with reason `r`. -/
lemma findSettled_map_append (rest : List (MsgId × Settled)) (r : Settled) :
    ∀ l : List MsgId, ∀ id : MsgId, id ∈ l →
      findSettled (l.map (fun i => (i, r)) ++ rest) id = some r := by
  intro l
  induction l with
  | nil => intro id h; cases h
  | cons a t ih =>
    intro id h
    by_cases ha : a = id
    · simp [findSettled, ha]
    · have ht : id ∈ t := by
        rcases List.mem_cons.mp h with rfl | h2
        · exact absurd rfl ha
        · exact h2
      simpa [findSettled, ha] using ih id ht

/-- Claim C6: `disconnect()` (which runs the shared `cleanup`) rejects
every pending request with the "Connection closed" reason and clears the
pending table, so a subsequent `connect()` starts with an empty Pending
Request table; the Web strategy's disconnect also resets the simulation to
its seed state. -/
theorem c6_disconnect_rejects_all_pending (wst : WebState) (ps : PendingState)
    (id : MsgId) (h : id ∈ ps.table) :
    (webDisconnect wst ps).snd.table = [] ∧
    findSettled (webDisconnect wst ps).snd.settled id
      = some (.rejectedWith connectionClosedReason) ∧
    (webDisconnect wst ps).fst = webInit := by
  refine ⟨rfl, ?_, rfl⟩
  exact findSettled_map_append ps.settled _ ps.table id h

/-- Witness for `c6_disconnect_rejects_all_pending`: two pending requests,
both rejected with "Connection closed" (shown for id (0,2)); the table is
empty afterwards. -/
theorem c6_disconnect_witness :
    (⟨0, 2⟩ : MsgId) ∈ (PendingState.mk [⟨0, 1⟩, ⟨0, 2⟩] []).table ∧
    ((webDisconnect webInit (PendingState.mk [⟨0, 1⟩, ⟨0, 2⟩] [])).snd.table = [] ∧
     findSettled
         (webDisconnect webInit (PendingState.mk [⟨0, 1⟩, ⟨0, 2⟩] [])).snd.settled
         ⟨0, 2⟩ = some (.rejectedWith connectionClosedReason) ∧
     (webDisconnect webInit (PendingState.mk [⟨0, 1⟩, ⟨0, 2⟩] [])).fst = webInit) :=
  ⟨by decide,
   c6_disconnect_rejects_all_pending webInit (PendingState.mk [⟨0, 1⟩, ⟨0, 2⟩] [])
     ⟨0, 2⟩ (by decide)⟩

/-- Filtering out the unique element carrying `id` drops exactly one
element. -/
lemma filter_length_succ (id : String) (s : Student) :
    ∀ l : List Student, (l.map Student.studentId).Nodup → s ∈ l →
      s.studentId = id →
      (l.filter (fun x => x.studentId ≠ id)).length + 1 = l.length := by
  intro l
  induction l with
  | nil => intro _ h; exact absurd h (List.not_mem_nil s)
  | cons a t ih =>
    intro hnd hmem hsid
    simp only [List.map_cons, List.nodup_cons] at hnd
    obtain ⟨hna, hnt⟩ := hnd
    by_cases hid : a.studentId = id
    · have hidnot : id ∉ t.map Student.studentId := by
        rw [← hid]; exact hna
      have hnone : ∀ x ∈ t, x.studentId ≠ id := by
        intro x hx hxid
        exact hidnot (hxid ▸ List.mem_map_of_mem Student.studentId hx)
      have hfi : t.filter (fun x => x.studentId ≠ id) = t :=
        List.filter_eq_self.mpr (by intro x hx; simpa using hnone x hx)
      have hfa : (a :: t).filter (fun x => x.studentId ≠ id)
          = t.filter (fun x => x.studentId ≠ id) := by
        simp [List.filter_cons, hid]
      rw [hfa, hfi]
      simp
    · have hsmem : s ∈ t := by
        rcases List.mem_cons.mp hmem with rfl | h2
        · exact absurd hsid hid
        · exact h2
      have hfa : (a :: t).filter (fun x => x.studentId ≠ id)
          = a :: t.filter (fun x => x.studentId ≠ id) := by
        simp [List.filter_cons, hid]
      have h3 := ih hnt hsmem hsid
      rw [hfa]
      simp only [List.length_cons]
      omega

/-- Claim C1 counterexample: the Windows and Android strategies perform no
minimum-size check at all on removal — each forwards the request to the
host over its preferred convention and returns the host's normalized
answer. With a host whose removal call answers `true` (whatever its
roster's active count — e.g. a roster already down to 2 active members),
`studentRemoved` returns `true` and publishes NO error event, contradicting
"a removal request is rejected ... by every strategy whenever the active
count is at or below 2". -/
theorem c1_counterexample_native_no_min_size_check :
    windowsStudentRemovedViaAsyncBridge (.jbool true) = (true, []) ∧
    androidStudentRemovedViaObject (.jbool true) = (true, []) :=
  ⟨rfl, rfl⟩

/-- Claim C1 as amended: only the browser-only Web strategy enforces the
minimum-size invariant. For any simulation state with duplicate-free ids
where `id` names an existing, not-yet-removed student: with at most 2
active entries the removal returns `false`, leaves the state unchanged and
publishes the error event with the dedicated `MIN_STUDENTS_REQUIRED` code;
with at least 3 active entries it succeeds and the active count drops by
exactly one; and every successful removal leaves at least 2 active
entries. (Windows/Android forward removals to the host unchecked — see the
counterexample.) -/
theorem c1_amended_min_roster_size (st : WebState) (id : String)
    (student : Student)
    (hnd : (st.mockStudents.map Student.studentId).Nodup)
    (hfind : st.mockStudents.find? (fun s => s.studentId = id) = some student)
    (hnr : id ∉ st.removedStudents) :
    ((activeStudents st).length ≤ 2 →
      webStudentRemoved st id
        = (false, st, [.errorEvent minStudentsMessage minStudentsCode])) ∧
    (3 ≤ (activeStudents st).length →
      (webStudentRemoved st id).fst = true ∧
      (activeStudents (webStudentRemoved st id).snd.fst).length + 1
        = (activeStudents st).length) ∧
    ((webStudentRemoved st id).fst = true →
      2 ≤ (activeStudents (webStudentRemoved st id).snd.fst).length) := by
  have hsid : student.studentId = id := by
    have h := List.find?_some hfind
    simpa using h
  have hsmem : student ∈ st.mockStudents := List.mem_of_find?_eq_some hfind
  have hb : webStudentRemoved st id =
      if (activeStudents st).length ≤ 2 then
        (false, st, [.errorEvent minStudentsMessage minStudentsCode])
      else
        (true,
         { st with
            removedStudents := strSetAdd st.removedStudents id,
            selectedStudents := strSetDelete st.selectedStudents id },
         [.removedResponse id student]) := by
    simp only [webStudentRemoved, hfind]
    rw [if_neg hnr]
  have hset : strSetAdd st.removedStudents id = st.removedStudents ++ [id] := by
    simp [strSetAdd, hnr]
  have hact :
      activeStudents
        { st with
            removedStudents := strSetAdd st.removedStudents id,
            selectedStudents := strSetDelete st.selectedStudents id }
        = (activeStudents st).filter (fun s => s.studentId ≠ id) := by
    simp only [activeStudents, hset, List.filter_filter]
    apply List.filter_congr
    intro x hx
    simp only [List.mem_append, List.mem_singleton, not_or]
    by_cases h1 : x.studentId ∈ st.removedStudents <;>
      by_cases h2 : x.studentId = id <;> simp [h1, h2]
  have hmemact : student ∈ activeStudents st := by
    apply List.mem_filter.mpr
    refine ⟨hsmem, ?_⟩
    simp [hsid, hnr]
  have hndact : ((activeStudents st).map Student.studentId).Nodup := by
    apply List.Nodup.sublist _ hnd
    exact List.Sublist.map Student.studentId (List.filter_sublist st.mockStudents)
  have hlen : 3 ≤ (activeStudents st).length →
      (activeStudents (webStudentRemoved st id).snd.fst).length + 1
        = (activeStudents st).length := by
    intro h3
    have hgt : ¬ (activeStudents st).length ≤ 2 := by omega
    rw [hb, if_neg hgt]
    simp only
    rw [hact]
    exact filter_length_succ id student (activeStudents st) hndact hmemact hsid
  refine ⟨?_, ?_, ?_⟩
  · intro hle
    rw [hb, if_pos hle]
  · intro h3
    have hgt : ¬ (activeStudents st).length ≤ 2 := by omega
    refine ⟨by rw [hb, if_neg hgt], hlen h3⟩
  · intro htrue
    by_cases hle : (activeStudents st).length ≤ 2
    · rw [hb, if_pos hle] at htrue
      simp at htrue
    · have h3 : 3 ≤ (activeStudents st).length := by omega
      have := hlen h3
      omega

/-- Witness for `c1_amended_min_roster_size` on a reachable 3-active state:
removing id "1" succeeds dropping the active count from 3 to 2 (and the
at-most-2 branch is available for the resulting state by the same
theorem). -/
theorem c1_min_roster_size_witness :
    ((webStateThreeActive.mockStudents.map Student.studentId).Nodup ∧
     webStateThreeActive.mockStudents.find? (fun s => s.studentId = "1")
       = some ⟨"1", "漩渦鳴人", some "1"⟩ ∧
     "1" ∉ webStateThreeActive.removedStudents ∧
     (activeStudents webStateThreeActive).length = 3) ∧
    (((activeStudents webStateThreeActive).length ≤ 2 →
      webStudentRemoved webStateThreeActive "1"
        = (false, webStateThreeActive,
           [.errorEvent minStudentsMessage minStudentsCode])) ∧
    (3 ≤ (activeStudents webStateThreeActive).length →
      (webStudentRemoved webStateThreeActive "1").fst = true ∧
      (activeStudents (webStudentRemoved webStateThreeActive "1").snd.fst).length + 1
        = (activeStudents webStateThreeActive).length) ∧
    ((webStudentRemoved webStateThreeActive "1").fst = true →
      2 ≤ (activeStudents (webStudentRemoved webStateThreeActive "1").snd.fst).length)) :=
  ⟨⟨by decide, by decide, by decide, by decide⟩,
   c1_amended_min_roster_size webStateThreeActive "1" ⟨"1", "漩渦鳴人", some "1"⟩
     (by decide) (by decide) (by decide)⟩

end Bridge
